import Mathlib

/-!
Verification of the Mephisto admission-control core
(`mephisto/core/task_launcher.py`) and execution driver / status model
(`mephisto/data_model/blueprint.py`) against its natural-language
specification.  The Python code is shallowly embedded: mutable object
state becomes explicit record-passing, Python dicts (insertion ordered)
become lists of keys, and exceptions become `Except` values.
-/

namespace Mephisto

/-! ## Status model: `AgentState` (blueprint.py, lines 331-391)

The thirteen status constants and the `complete`/`valid` static lists,
with the exact string values used in the source. -/

namespace AgentState

def STATUS_NONE : String := "none"
def STATUS_ACCEPTED : String := "accepted"
def STATUS_ONBOARDING : String := "onboarding"
def STATUS_WAITING : String := "waiting"
def STATUS_IN_TASK : String := "in task"
def STATUS_COMPLETED : String := "completed"
def STATUS_DISCONNECT : String := "disconnect"
def STATUS_TIMEOUT : String := "timeout"
def STATUS_PARTNER_DISCONNECT : String := "partner disconnect"
def STATUS_EXPIRED : String := "expired"
def STATUS_RETURNED : String := "returned"
def STATUS_APPROVED : String := "approved"
def STATUS_REJECTED : String := "rejected"

/-- `AgentState.complete()`: the final statuses which cannot be updated. -/
def complete : List String :=
  [ STATUS_COMPLETED
  , STATUS_DISCONNECT
  , STATUS_TIMEOUT
  , STATUS_EXPIRED
  , STATUS_RETURNED ]

/-- `AgentState.valid()`: the list the source actually returns
(blueprint.py lines 376-391). -/
def valid : List String :=
  [ STATUS_NONE
  , STATUS_ONBOARDING
  , STATUS_WAITING
  , STATUS_IN_TASK
  , STATUS_COMPLETED
  , STATUS_DISCONNECT
  , STATUS_TIMEOUT
  , STATUS_PARTNER_DISCONNECT
  , STATUS_EXPIRED
  , STATUS_RETURNED ]

/-- The thirteen-element closed vocabulary of agent statuses declared as
class constants on `AgentState` (blueprint.py lines 332-344). -/
def statusVocabulary : List String :=
  [ STATUS_NONE
  , STATUS_ACCEPTED
  , STATUS_ONBOARDING
  , STATUS_WAITING
  , STATUS_IN_TASK
  , STATUS_COMPLETED
  , STATUS_DISCONNECT
  , STATUS_TIMEOUT
  , STATUS_PARTNER_DISCONNECT
  , STATUS_EXPIRED
  , STATUS_RETURNED
  , STATUS_APPROVED
  , STATUS_REJECTED ]

end AgentState

/-! ## Execution driver: `TaskRunner` launch entry points
(blueprint.py, lines 128-217)

The task-specific `run_*` / `cleanup_*` operations are abstract (supplied
by subclasses); we quantify over their behaviour: each call either returns
normally or raises an exception.  The recoverable worker faults are the
three exception classes named in the source's `except` clauses; any other
Python `Exception` is an unrecognized fault.  The exception also carries
the id of the agent that caused it (`e.agent_id`, used by
`launch_assignment`). -/

/-- The three recoverable worker-fault exception classes
(`mephisto.data_model.exceptions`). -/
inductive WorkerFault
  | agentReturned
  | agentDisconnected
  | agentTimeout
deriving DecidableEq, Repr

/-- A Python exception as seen by the launch entry points: either one of
the three recoverable worker faults (carrying `agent_id`) or any other
`Exception` (carrying its message). -/
inductive Exn
  | worker (fault : WorkerFault) (agent_id : String)
  | other (msg : String)
deriving DecidableEq, Repr

deriving instance DecidableEq for Except

/-- Result of a fallible Python call: normal return or a raised exception. -/
abbrev PyResult (α : Type) := Except Exn α

/-- The `TaskRunner`'s mutable registries (blueprint.py lines 104-106):
Python dicts keyed by entity id; we keep the ordered key lists. -/
structure RunnerState where
  running_assignments : List String
  running_units : List String
  running_onboardings : List String
deriving DecidableEq, Repr

/-- Outcome of one call to a launch entry point: the final registry
state, whether the call itself raised (`outcome = .error e` means the
exception `e` propagated to the caller), and the externally visible
side effects performed on the data model. -/
structure LaunchResult where
  st : RunnerState
  outcome : PyResult Unit
  ranCleanup : Bool
  clearedAgent : Bool
  markedDone : Bool
  partnerDisconnected : List String
  expiredAgentUnits : List String
deriving DecidableEq, Repr

/-- `TaskRunner.launch_unit` (blueprint.py lines 155-180).
`run_result` is the behaviour of the task-specific `run_unit`;
`cleanup_result` of `cleanup_unit`. -/
def launch_unit (st : RunnerState) (unit_id : String)
    (run_result : PyResult Unit) (cleanup_result : PyResult Unit) :
    LaunchResult :=
  if unit_id ∈ st.running_units then
    -- "Unit ... is already running": early return, nothing happens
    { st := st, outcome := .ok (), ranCleanup := false,
      clearedAgent := false, markedDone := false,
      partnerDisconnected := [], expiredAgentUnits := [] }
  else
    let st1 := { st with running_units := st.running_units ++ [unit_id] }
    let removed := fun (s : RunnerState) =>
      { s with running_units := s.running_units.filter (· ≠ unit_id) }
    match run_result with
    | .ok _ =>
        -- run_unit returned: fall through to `del self.running_units[...]`
        { st := removed st1, outcome := .ok (), ranCleanup := false,
          clearedAgent := false, markedDone := false,
          partnerDisconnected := [], expiredAgentUnits := [] }
    | .error (.worker _ _) =>
        -- recoverable: clear_assigned_agent, then cleanup_unit
        (match cleanup_result with
         | .ok _ =>
             { st := removed st1, outcome := .ok (), ranCleanup := true,
               clearedAgent := true, markedDone := false,
               partnerDisconnected := [], expiredAgentUnits := [] }
         | .error e =>
             -- cleanup_unit raised inside the except-block: the exception
             -- propagates and the `del` on line 179 is never reached
             { st := st1, outcome := .error e, ranCleanup := true,
               clearedAgent := true, markedDone := false,
               partnerDisconnected := [], expiredAgentUnits := [] })
    | .error (.other _) =>
        -- unrecognized fault: print traceback, then cleanup_unit
        (match cleanup_result with
         | .ok _ =>
             { st := removed st1, outcome := .ok (), ranCleanup := true,
               clearedAgent := false, markedDone := false,
               partnerDisconnected := [], expiredAgentUnits := [] }
         | .error e =>
             { st := st1, outcome := .error e, ranCleanup := true,
               clearedAgent := false, markedDone := false,
               partnerDisconnected := [], expiredAgentUnits := [] })

/-- `TaskRunner.launch_onboarding` (blueprint.py lines 128-153).
On success `onboarding_agent.mark_done()` is called. -/
def launch_onboarding (st : RunnerState) (onboarding_id : String)
    (run_result : PyResult Unit) (cleanup_result : PyResult Unit) :
    LaunchResult :=
  if onboarding_id ∈ st.running_onboardings then
    { st := st, outcome := .ok (), ranCleanup := false,
      clearedAgent := false, markedDone := false,
      partnerDisconnected := [], expiredAgentUnits := [] }
  else
    let st1 :=
      { st with running_onboardings := st.running_onboardings ++ [onboarding_id] }
    let removed := fun (s : RunnerState) =>
      { s with running_onboardings := s.running_onboardings.filter (· ≠ onboarding_id) }
    match run_result with
    | .ok _ =>
        { st := removed st1, outcome := .ok (), ranCleanup := false,
          clearedAgent := false, markedDone := true,
          partnerDisconnected := [], expiredAgentUnits := [] }
    | .error (.worker _ _) =>
        (match cleanup_result with
         | .ok _ =>
             { st := removed st1, outcome := .ok (), ranCleanup := true,
               clearedAgent := false, markedDone := false,
               partnerDisconnected := [], expiredAgentUnits := [] }
         | .error e =>
             { st := st1, outcome := .error e, ranCleanup := true,
               clearedAgent := false, markedDone := false,
               partnerDisconnected := [], expiredAgentUnits := [] })
    | .error (.other _) =>
        (match cleanup_result with
         | .ok _ =>
             { st := removed st1, outcome := .ok (), ranCleanup := true,
               clearedAgent := false, markedDone := false,
               partnerDisconnected := [], expiredAgentUnits := [] }
         | .error e =>
             { st := st1, outcome := .error e, ranCleanup := true,
               clearedAgent := false, markedDone := false,
               partnerDisconnected := [], expiredAgentUnits := [] })

/-- `TaskRunner.launch_assignment` (blueprint.py lines 182-217).
`agents` are the db_ids of the agents working the assignment; on a
recoverable fault every agent other than the faulting one is marked
`partner disconnect`, and the faulting agent's unit is expired. -/
def launch_assignment (st : RunnerState) (assignment_id : String)
    (agents : List String)
    (run_result : PyResult Unit) (cleanup_result : PyResult Unit) :
    LaunchResult :=
  if assignment_id ∈ st.running_assignments then
    { st := st, outcome := .ok (), ranCleanup := false,
      clearedAgent := false, markedDone := false,
      partnerDisconnected := [], expiredAgentUnits := [] }
  else
    let st1 :=
      { st with running_assignments := st.running_assignments ++ [assignment_id] }
    let removed := fun (s : RunnerState) =>
      { s with running_assignments := s.running_assignments.filter (· ≠ assignment_id) }
    match run_result with
    | .ok _ =>
        { st := removed st1, outcome := .ok (), ranCleanup := false,
          clearedAgent := false, markedDone := false,
          partnerDisconnected := [], expiredAgentUnits := [] }
    | .error (.worker _ faulting_id) =>
        let partners := agents.filter (· ≠ faulting_id)
        let faulted := agents.filter (· = faulting_id)
        (match cleanup_result with
         | .ok _ =>
             { st := removed st1, outcome := .ok (), ranCleanup := true,
               clearedAgent := false, markedDone := false,
               partnerDisconnected := partners, expiredAgentUnits := faulted }
         | .error e =>
             { st := st1, outcome := .error e, ranCleanup := true,
               clearedAgent := false, markedDone := false,
               partnerDisconnected := partners, expiredAgentUnits := faulted })
    | .error (.other _) =>
        (match cleanup_result with
         | .ok _ =>
             { st := removed st1, outcome := .ok (), ranCleanup := true,
               clearedAgent := false, markedDone := false,
               partnerDisconnected := [], expiredAgentUnits := [] }
         | .error e =>
             { st := st1, outcome := .error e, ranCleanup := true,
               clearedAgent := false, markedDone := false,
               partnerDisconnected := [], expiredAgentUnits := [] })

/-! ## Task launcher: `TaskLauncher` (task_launcher.py)

Durable storage (`MephistoDB`) is embedded as explicit tables of
assignment and unit rows with a fresh-id counter; the launcher's Python
dicts `launched_units` / `unlaunched_units` (insertion ordered, keyed by
unit db_id) are embedded as ordered lists of unit ids. -/

/-- Modelled from the spec: `AssignmentState.LAUNCHED` / `ASSIGNED`
(data_model/assignment.py is not among the sources) are the two
"still running, consumes an admission slot" unit statuses the
reconciliation step compares against. -/
def AssignmentState.LAUNCHED : String := "launched"

/-- Modelled from the spec: the assigned-to-worker unit status, see
`AssignmentState.LAUNCHED`. -/
def AssignmentState.ASSIGNED : String := "assigned"

/-- Modelled from the spec: the status a force-expired unit ends in. -/
def AssignmentState.EXPIRED : String := "expired"

/-- Modelled from the spec: the terminal statuses — once in one of
these, no further transition is permitted. -/
def terminalStatuses : List String :=
  ["completed", "disconnect", "timeout", "expired", "returned"]

/-- One record from the data source: an opaque shared payload plus the
ordered per-unit payload sequence (`assignment_data["unit_data"]`). -/
structure InitializationData where
  shared : Nat
  unit_data : List Nat
deriving DecidableEq, Repr

/-- A persisted assignment row (`db.new_assignment` plus the written
assignment data). -/
structure DbAssignment where
  assignment_id : Nat
  data : InitializationData
deriving DecidableEq, Repr

/-- A persisted unit row (`db.new_unit`): its id, parent assignment and
index within that assignment. -/
structure DbUnit where
  unit_id : Nat
  assignment_id : Nat
  unit_index : Nat
deriving DecidableEq, Repr

/-- The storage engine's state: the two tables and the next fresh id. -/
structure DbState where
  assignments : List DbAssignment
  units : List DbUnit
  nextId : Nat
deriving DecidableEq, Repr

/-- `GeneratorType` (task_launcher.py lines 39-42). -/
inductive GeneratorType
  | none
  | unit
  | assignment
deriving DecidableEq, Repr

/-- The mutable fields of a `TaskLauncher` object, plus the storage it
writes through. -/
structure LauncherState where
  db : DbState
  max_num_concurrent_units : Nat
  generator_type : GeneratorType
  assignments : List Nat
  units : List Nat
  launched_units : List Nat
  unlaunched_units : List Nat
  keep_launching_units : Bool
  finished_generators : Bool
  did_create_assignments : Bool
  did_launch_units : Bool
deriving DecidableEq, Repr

/-- The dynamic type of the `assignment_data_iterator` argument, as far
as `isinstance(x, types.GeneratorType)` can distinguish it. -/
inductive DataSourceKind
  | generatorObj
  | listObj
  | iterObj
deriving DecidableEq, Repr

/-- Result of `TaskLauncher.__init__`: the initialized object state and
whether a `manage_generators` background thread was started. -/
structure InitState where
  launcher : LauncherState
  startedGeneratorThread : Bool
deriving DecidableEq, Repr

/-- `TaskLauncher.__init__` (task_launcher.py lines 52-85). -/
def TaskLauncher.init (kind : DataSourceKind) (db : DbState)
    (max_num_concurrent_units : Nat) : InitState :=
  let generator_type :=
    match kind with
    | .generatorObj => GeneratorType.assignment
    | _ => GeneratorType.none
  { launcher :=
      { db := db
      , max_num_concurrent_units := max_num_concurrent_units
      , generator_type := generator_type
      , assignments := []
      , units := []
      , launched_units := []
      , unlaunched_units := []
      , keep_launching_units := false
      , finished_generators := false
      , did_create_assignments := false
      , did_launch_units := false }
  , startedGeneratorThread := generator_type ≠ GeneratorType.none }

/-- The body of the unit-creation loop inside
`_create_single_assignment` (task_launcher.py lines 110-125): persist
one unit row for `unit_idx`, append it to `self.units`, insert it into
`unlaunched_units`, set `keep_launching_units`. -/
def addUnit (aid : Nat) (st : LauncherState) (unit_idx : Nat) : LauncherState :=
  let uid := st.db.nextId
  { st with
    db := { st.db with
              units := st.db.units ++ [⟨uid, aid, unit_idx⟩]
            , nextId := uid + 1 }
  , units := st.units ++ [uid]
  , unlaunched_units := st.unlaunched_units ++ [uid]
  , keep_launching_units := true }

/-- `TaskLauncher._create_single_assignment` (task_launcher.py lines
94-125): persist the assignment, append it to `self.assignments`, then
create one unit per entry of `assignment_data["unit_data"]`. -/
def create_single_assignment (st : LauncherState)
    (data : InitializationData) : LauncherState :=
  let aid := st.db.nextId
  let st1 := { st with
    db := { st.db with
              assignments := st.db.assignments ++ [⟨aid, data⟩]
            , nextId := aid + 1 }
  , assignments := st.assignments ++ [aid] }
  (List.range data.unit_data.length).foldl (addUnit aid) st1

/-- `_create_single_assignment` under a failure schedule over its
storage writes: write 0 is `db.new_assignment`, write `1 + i` is
`db.new_unit` for `unit_idx = i`.  `failAt = some k` makes the k-th
write raise; every earlier write persists (the method has no
transaction or rollback).  Returns the resulting state and whether an
exception escaped. -/
def create_single_assignment_fallible (st : LauncherState)
    (data : InitializationData) (failAt : Option Nat) :
    LauncherState × Bool :=
  match failAt with
  | some 0 => (st, true)
  | some (k + 1) =>
      if k < data.unit_data.length then
        -- the assignment write and the first k unit writes succeeded,
        -- the (k+1)-st storage write (unit index k) raised
        (let aid := st.db.nextId
         let st1 := { st with
           db := { st.db with
                     assignments := st.db.assignments ++ [⟨aid, data⟩]
                   , nextId := aid + 1 }
         , assignments := st.assignments ++ [aid] }
         (List.range k).foldl (addUnit aid) st1, true)
      else
        -- the schedule lies beyond the last write: nothing fails
        (create_single_assignment st data, false)
  | none => (create_single_assignment st data, false)

/-- `TaskLauncher.create_assignments` (task_launcher.py lines 137-144):
in bounded mode drain the whole iterable synchronously; in streaming
mode only flip the two flags the background loop polls. -/
def create_assignments (st : LauncherState)
    (records : List InitializationData) : LauncherState :=
  match st.generator_type with
  | GeneratorType.none => records.foldl create_single_assignment st
  | _ => { st with did_create_assignments := true, did_launch_units := true }

/-! ### The admission generator `generate_units` (lines 146-183)

One pass of its while-loop body: prune `launched_units` of units whose
status left {LAUNCHED, ASSIGNED}, compute the available slots, admit that
many units from `unlaunched_units` in insertion (FIFO) order — each
admitted unit is inserted into `launched_units` and *yielded* before the
batch of deferred pops on lines 177-179 removes the admitted ids from
`unlaunched_units`.  `statusOf` is the status `unit.get_status()` reports
during this pass. -/

/-- The negation of the removal condition on lines 152-157: the unit
still occupies a concurrency slot. -/
def stillRunning (statusOf : Nat → String) (uid : Nat) : Bool :=
  statusOf uid == AssignmentState.LAUNCHED
    || statusOf uid == AssignmentState.ASSIGNED

/-- `num_avail_units` (lines 161-166); negative when more units are
launched than the cap. -/
def numAvailUnits (cap launchedCount pendingCount : Nat) : Int :=
  if cap = 0 then (pendingCount : Int)
  else (cap : Int) - (launchedCount : Int)

/-- How many units the admission loop of lines 168-176 yields: it walks
`unlaunched_units` in order and admits while `i < num_avail_units`. -/
def admittedCount (cap launchedCount pendingCount : Nat) : Nat :=
  min (numAvailUnits cap launchedCount pendingCount).toNat pendingCount

/-- One full pass of the `generate_units` loop body, observed at the
pass boundary (after the deferred pops): the reconciliation point. -/
def admissionCycle (statusOf : Nat → String) (st : LauncherState) :
    LauncherState :=
  if st.keep_launching_units then
    let pruned := st.launched_units.filter (stillRunning statusOf)
    let t := admittedCount st.max_num_concurrent_units pruned.length
        st.unlaunched_units.length
    let admitted := st.unlaunched_units.take t
    { st with
      launched_units := pruned ++ admitted
    , unlaunched_units :=
        st.unlaunched_units.filter (fun uid => !(admitted.contains uid)) }
  else st

/-- The launcher state visible at each `yield` suspension point
(line 174) during one pass: after the `(k+1)`-st admission the admitted
units are already in `launched_units`, while the deferred pops of lines
177-179 have not yet removed them from `unlaunched_units`. -/
def yieldStates (statusOf : Nat → String) (st : LauncherState) :
    List LauncherState :=
  if st.keep_launching_units then
    let pruned := st.launched_units.filter (stillRunning statusOf)
    let t := admittedCount st.max_num_concurrent_units pruned.length
        st.unlaunched_units.length
    (List.range t).map (fun k =>
      { st with launched_units := pruned ++ st.unlaunched_units.take (k + 1) })
  else []

/-- Iterated reconciliation passes; the k-th entry of `statusReads` is
the status assignment the k-th pass observes. -/
def runCycles (statusReads : List (Nat → String)) (st : LauncherState) :
    LauncherState :=
  statusReads.foldl (fun s f => admissionCycle f s) st

/-! ### Expiration (`expire_units`, lines 200-211) -/

/-- Modelled from the spec: `Unit.expire`
(data_model/assignment.py is not among the sources) force-expires the
unit — its status becomes `expired` regardless of its previous value. -/
def unitExpire (statusOf : Nat → String) (uid : Nat) : Nat → String :=
  fun i => if i = uid then AssignmentState.EXPIRED else statusOf i

/-- `TaskLauncher.expire_units` (lines 200-211): stop both loops, then
best-effort expire every unit ever created; `expireFails uid` models
`unit.expire()` raising an `Exception`, which the except-block logs
before the loop continues with the next unit. -/
def expire_units (st : LauncherState) (statusOf : Nat → String)
    (expireFails : Nat → Bool) : LauncherState × (Nat → String) :=
  let st1 := { st with keep_launching_units := false
                     , finished_generators := true }
  (st1, st.units.foldl
    (fun m uid => if expireFails uid then m else unitExpire m uid) statusOf)

/-! ### The two background threads as an interleaved system (C7)

In streaming mode two threads race on the launcher state: the
registration loop `manage_generators` (lines 87-92, with
`_try_generate_assignments`, lines 127-135) and the launch driver
`_launch_limited_units` (lines 185-192, consuming `generate_units`).
Each step below is a block the corresponding thread executes without
observing the other thread in between; any interleaving of these blocks
is a legal schedule of the real threads. -/

/-- Program counter of the launch-driver thread. -/
inductive DriverPc
  | outerCheck
  | cycleRun
  | stopped
deriving DecidableEq, Repr

/-- The whole system: shared launcher state, the records the data-source
generator will still yield, and the driver thread's position. -/
structure SysState where
  launcher : LauncherState
  source : List InitializationData
  driverPc : DriverPc
deriving DecidableEq, Repr

/-- One iteration of the `manage_generators` polling loop: when the
`did_create_assignments` flag is up, pull the next record
(`_try_generate_assignments`); `StopIteration` flips the three flags and
the loop terminates. -/
def regStep (s : SysState) : SysState :=
  if s.launcher.finished_generators then s
  else if s.launcher.did_create_assignments then
    match s.source with
    | data :: rest =>
        { s with launcher := create_single_assignment s.launcher data
               , source := rest }
    | [] =>
        { s with launcher := { s.launcher with
            did_create_assignments := false
          , did_launch_units := false
          , finished_generators := true } }
  else s

/-- One scheduling quantum of the launch-driver thread: either the outer
`while self.did_launch_units` test (line 187), or — inside
`generate_units` — one full admission pass followed by the post-sleep
emptiness test of lines 182-183; when the generator returns, bounded
mode clears `did_launch_units` and breaks (lines 190-192). -/
def drvStep (statusOf : Nat → String) (s : SysState) : SysState :=
  match s.driverPc with
  | .stopped => s
  | .outerCheck =>
      if s.launcher.did_launch_units then { s with driverPc := .cycleRun }
      else { s with driverPc := .stopped }
  | .cycleRun =>
      if s.launcher.keep_launching_units then
        if (admissionCycle statusOf s.launcher).unlaunched_units.isEmpty then
          -- the generator breaks and returns
          if (admissionCycle statusOf s.launcher).generator_type
              = GeneratorType.none then
            { s with launcher := { admissionCycle statusOf s.launcher with
                                     did_launch_units := false }
                   , driverPc := .stopped }
          else
            { s with launcher := admissionCycle statusOf s.launcher
                   , driverPc := .outerCheck }
        else
          { s with launcher := admissionCycle statusOf s.launcher
                 , driverPc := .cycleRun }
      else
        -- `while self.keep_launching_units` fails: generator returns at once
        if s.launcher.generator_type = GeneratorType.none then
          { s with launcher := { s.launcher with did_launch_units := false }
                 , driverPc := .stopped }
        else
          { s with driverPc := .outerCheck }

/-- Which thread runs the next block, and the unit statuses the driver
would observe during it. -/
inductive SysTid
  | reg
  | drv

/-- Run an interleaving of the two threads. -/
def runTrace (ts : List (SysTid × (Nat → String))) (s : SysState) : SysState :=
  ts.foldl (fun s t =>
    match t.1 with
    | SysTid.reg => regStep s
    | SysTid.drv => drvStep t.2 s) s

/-- The streaming-mode system right after the composition root called
`create_assignments()` (flags up) and `launch_units(url)` (driver thread
spawned at the top of its loop); the registration thread was already
started by `__init__`. -/
def streamingStart (db : DbState) (cap : Nat)
    (source : List InitializationData) : SysState :=
  let st0 := (TaskLauncher.init DataSourceKind.generatorObj db cap).launcher
  { launcher := { st0 with did_create_assignments := true
                         , did_launch_units := true }
  , source := source
  , driverPc := DriverPc.outerCheck }

/-! ## Theorems -/

/-- C9: the claim says every status of the thirteen-element vocabulary
(`none, accepted, onboarding, waiting, in_task, completed, disconnect,
timeout, partner_disconnect, expired, returned, approved, rejected`) is
a member of the list `AgentState.valid()` returns, and no other status
is.  Evaluating the code: `valid()` returns only ten statuses — it omits
`accepted`, `approved` and `rejected`, although all three are members of
the declared vocabulary (and the source's own TODO note on `valid()`
says all `AgentState` statuses should be listed there). -/
theorem c9_valid_omits_three_statuses :
    AgentState.STATUS_ACCEPTED ∉ AgentState.valid ∧
    AgentState.STATUS_APPROVED ∉ AgentState.valid ∧
    AgentState.STATUS_REJECTED ∉ AgentState.valid ∧
    AgentState.STATUS_ACCEPTED ∈ AgentState.statusVocabulary ∧
    AgentState.STATUS_APPROVED ∈ AgentState.statusVocabulary ∧
    AgentState.STATUS_REJECTED ∈ AgentState.statusVocabulary ∧
    AgentState.valid.length = 10 ∧
    AgentState.statusVocabulary.length = 13 ∧
    (∀ s ∈ AgentState.valid, s ∈ AgentState.statusVocabulary) := by
  decide

/-- C10: the operating mode is decided solely by
`isinstance(assignment_data_iterable, types.GeneratorType)`: the
background registration thread is started iff the input is a generator
object, and for every non-generator iterable `create_assignments` drains
the iterable synchronously in one pass. -/
theorem c10_mode_decided_by_generator_kind
    (kind : DataSourceKind) (db : DbState) (cap : Nat)
    (records : List InitializationData) :
    ((TaskLauncher.init kind db cap).startedGeneratorThread = true
        ↔ kind = DataSourceKind.generatorObj) ∧
    (kind ≠ DataSourceKind.generatorObj →
      create_assignments (TaskLauncher.init kind db cap).launcher records
        = records.foldl create_single_assignment
            (TaskLauncher.init kind db cap).launcher) := by
  cases kind <;> simp [TaskLauncher.init, create_assignments]

/-- Witness for C10 at a concrete non-generator input: a list-backed
data source starts no thread and is drained synchronously. -/
theorem c10_witness :
    create_assignments
        (TaskLauncher.init DataSourceKind.listObj ⟨[], [], 0⟩ 2).launcher
        [⟨5, [1, 2]⟩]
      = [InitializationData.mk 5 [1, 2]].foldl create_single_assignment
          (TaskLauncher.init DataSourceKind.listObj ⟨[], [], 0⟩ 2).launcher :=
  (c10_mode_decided_by_generator_kind DataSourceKind.listObj ⟨[], [], 0⟩ 2
      [⟨5, [1, 2]⟩]).2 (by decide)

/-- C3 counterexample: `run_unit` raises a recoverable worker fault and
`cleanup_unit` itself raises; the cleanup exception propagates out of
`launch_unit` to its caller, so the claim "no exception originating
inside the task execution propagates to the caller of the launch entry
point, including cleanup_* itself raising" is false on the code. -/
theorem c3_counterexample :
    (launch_unit ⟨[], [], []⟩ "u1"
        (.error (.worker .agentReturned "a1"))
        (.error (.other "cleanup failed"))).outcome
      = .error (.other "cleanup failed") ∧
    (launch_unit ⟨[], [], []⟩ "u1"
        (.error (.worker .agentReturned "a1"))
        (.error (.other "cleanup failed"))).outcome ≠ .ok () := by
  decide

/-- C3 amended: for every launch entry point and every behaviour of the
task-specific `run_*` operation, **provided the `cleanup_*` handler does
not itself raise**, no exception originating inside the task execution
propagates to the caller; when `cleanup_*` raises (reachable only after
`run_*` raised), that cleanup exception escapes the entry point. -/
theorem c3_no_propagation_when_cleanup_returns
    (st : RunnerState) (unit_id ob_id as_id : String)
    (agents : List String) (run_result cleanup_result : PyResult Unit)
    (hc : cleanup_result = .ok ()) :
    (launch_unit st unit_id run_result cleanup_result).outcome = .ok () ∧
    (launch_onboarding st ob_id run_result cleanup_result).outcome = .ok () ∧
    (launch_assignment st as_id agents run_result cleanup_result).outcome
      = .ok () := by
  subst hc
  refine ⟨?_, ?_, ?_⟩
  · unfold launch_unit
    split
    · rfl
    · rcases run_result with e | _
      · rcases e with ⟨f, a⟩ | m <;> rfl
      · rfl
  · unfold launch_onboarding
    split
    · rfl
    · rcases run_result with e | _
      · rcases e with ⟨f, a⟩ | m <;> rfl
      · rfl
  · unfold launch_assignment
    split
    · rfl
    · rcases run_result with e | _
      · rcases e with ⟨f, a⟩ | m <;> rfl
      · rfl

/-- Witness for the amended C3 at concrete inputs: with a returning
cleanup, a recoverable fault in `run_unit` does not escape any of the
three entry points. -/
theorem c3_witness :
    (launch_unit ⟨[], [], []⟩ "u1"
        (.error (.worker .agentReturned "a1")) (.ok ())).outcome = .ok () ∧
    (launch_onboarding ⟨[], [], []⟩ "o1"
        (.error (.worker .agentReturned "a1")) (.ok ())).outcome = .ok () ∧
    (launch_assignment ⟨[], [], []⟩ "as1" ["a1", "a2"]
        (.error (.worker .agentReturned "a1")) (.ok ())).outcome = .ok () :=
  c3_no_propagation_when_cleanup_returns ⟨[], [], []⟩ "u1" "o1" "as1"
    ["a1", "a2"] (.error (.worker .agentReturned "a1")) (.ok ()) rfl

/-- C4 counterexample: when `cleanup_unit` raises, the `del
self.running_units[...]` on line 179 is never reached, so the entry
inserted at the start of `launch_unit` is still present when the call
ends — the claim that the entry is removed "on every exit path,
including a fault raised by the cleanup_* handler itself" is false. -/
theorem c4_counterexample :
    "u1" ∈ (launch_unit ⟨[], [], []⟩ "u1"
        (.error (.worker .agentReturned "a1"))
        (.error (.other "cleanup failed"))).st.running_units := by
  decide

/-- C4 amended: for each launch entry point, on every exit path on which
the `cleanup_*` handler does not raise — success, recoverable worker
fault, or unrecognized fault (and on success the handler is never
invoked, so its behaviour is then irrelevant) — the entry inserted into
the currently-running registry at the start of the launch is removed
before the call ends. -/
theorem c4_registry_removed_when_cleanup_returns
    (st : RunnerState) (unit_id ob_id as_id : String)
    (agents : List String) (run_result cleanup_result : PyResult Unit)
    (hok : run_result = .ok () ∨ cleanup_result = .ok ())
    (hu : unit_id ∉ st.running_units)
    (ho : ob_id ∉ st.running_onboardings)
    (ha : as_id ∉ st.running_assignments) :
    unit_id ∉
      (launch_unit st unit_id run_result cleanup_result).st.running_units ∧
    ob_id ∉
      (launch_onboarding st ob_id run_result cleanup_result).st.running_onboardings ∧
    as_id ∉
      (launch_assignment st as_id agents run_result cleanup_result).st.running_assignments := by
  refine ⟨?_, ?_, ?_⟩
  · unfold launch_unit
    split
    · exact absurd (by assumption) hu
    · rcases run_result with e | _
      · rcases hok with hok | hok
        · exact absurd hok (by simp)
        · subst hok
          rcases e with ⟨f, a⟩ | m <;> simp
      · simp
  · unfold launch_onboarding
    split
    · exact absurd (by assumption) ho
    · rcases run_result with e | _
      · rcases hok with hok | hok
        · exact absurd hok (by simp)
        · subst hok
          rcases e with ⟨f, a⟩ | m <;> simp
      · simp
  · unfold launch_assignment
    split
    · exact absurd (by assumption) ha
    · rcases run_result with e | _
      · rcases hok with hok | hok
        · exact absurd hok (by simp)
        · subst hok
          rcases e with ⟨f, a⟩ | m <;> simp
      · simp

/-- Witness for the amended C4 at concrete inputs: with a returning
cleanup, a recoverable fault leaves no entry behind in any of the three
registries. -/
theorem c4_witness :
    decide ("u1" ∈ (launch_unit ⟨[], [], []⟩ "u1"
        (.error (.worker .agentReturned "a1")) (.ok ())).st.running_units)
      = false ∧
    decide ("o1" ∈ (launch_onboarding ⟨[], [], []⟩ "o1"
        (.error (.worker .agentReturned "a1")) (.ok ())).st.running_onboardings)
      = false ∧
    decide ("as1" ∈ (launch_assignment ⟨[], [], []⟩ "as1" ["a1", "a2"]
        (.error (.worker .agentReturned "a1")) (.ok ())).st.running_assignments)
      = false :=
  have h := c4_registry_removed_when_cleanup_returns ⟨[], [], []⟩ "u1" "o1"
    "as1" ["a1", "a2"] (.error (.worker .agentReturned "a1")) (.ok ())
    (Or.inr rfl) (by decide) (by decide) (by decide)
  ⟨decide_eq_false h.1, decide_eq_false h.2.1, decide_eq_false h.2.2⟩

/-! ### Admission-cycle lemmas (C1, C2) -/

/-- A reconciliation pass never changes the concurrency cap. -/
lemma admissionCycle_cap (f : Nat → String) (st : LauncherState) :
    (admissionCycle f st).max_num_concurrent_units
      = st.max_num_concurrent_units := by
  unfold admissionCycle
  split <;> rfl

/-- One reconciliation pass keeps Pending and Active disjoint at the
pass boundary (after the deferred pops). -/
lemma admissionCycle_disjoint (f : Nat → String) (st : LauncherState)
    (h : ∀ u ∈ st.launched_units, u ∉ st.unlaunched_units) :
    ∀ u ∈ (admissionCycle f st).launched_units,
      u ∉ (admissionCycle f st).unlaunched_units := by
  by_cases hk : st.keep_launching_units
  · intro u hu hmem
    simp only [admissionCycle, if_pos hk] at hu hmem
    simp only [List.mem_append] at hu
    rw [List.mem_filter] at hmem
    obtain ⟨hm1, hm2⟩ := hmem
    simp [List.contains] at hm2
    rcases hu with hu | hu
    · exact h u (List.mem_filter.mp hu).1 hm1
    · exact hm2 hu
  · intro u hu
    simp only [admissionCycle, if_neg hk] at hu ⊢
    exact h u hu

/-- With a positive cap, one reconciliation pass keeps the Active set
within the cap: it admits at most `cap - |Active-after-pruning|`. -/
lemma admissionCycle_cap_le (f : Nat → String) (st : LauncherState)
    (hcap : 0 < st.max_num_concurrent_units)
    (h : st.launched_units.length ≤ st.max_num_concurrent_units) :
    (admissionCycle f st).launched_units.length
      ≤ st.max_num_concurrent_units := by
  by_cases hk : st.keep_launching_units
  · simp only [admissionCycle, if_pos hk, List.length_append]
    have hpl : (st.launched_units.filter (stillRunning f)).length
        ≤ st.launched_units.length := List.length_filter_le _ _
    set pl := (st.launched_units.filter (stillRunning f)).length with hpldef
    have hcap0 : st.max_num_concurrent_units ≠ 0 := Nat.pos_iff_ne_zero.mp hcap
    have htake : ∀ t : Nat,
        (st.unlaunched_units.take t).length ≤ t := by
      intro t
      rw [List.length_take]
      exact Nat.min_le_left _ _
    have ht : admittedCount st.max_num_concurrent_units pl
          st.unlaunched_units.length
        ≤ st.max_num_concurrent_units - pl := by
      unfold admittedCount numAvailUnits
      rw [if_neg hcap0]
      calc min ((st.max_num_concurrent_units : Int) - (pl : Int)).toNat
              st.unlaunched_units.length
          ≤ ((st.max_num_concurrent_units : Int) - (pl : Int)).toNat :=
            Nat.min_le_left _ _
        _ = st.max_num_concurrent_units - pl := Int.toNat_sub _ _
    have := htake (admittedCount st.max_num_concurrent_units pl
        st.unlaunched_units.length)
    omega
  · simp only [admissionCycle, if_neg hk]
    exact h

/-- C2: for every concurrency cap `C > 0`, the Active set never exceeds
`C` at any reconciliation point — if `|launched_units| ≤ C` holds when a
sequence of `generate_units` passes starts, it still holds after any
number of passes, each pass admitting at most `C - |Active|` units after
pruning units whose status left {LAUNCHED, ASSIGNED}. -/
theorem c2_cap_respected (statusReads : List (Nat → String))
    (st : LauncherState)
    (hcap : 0 < st.max_num_concurrent_units)
    (hinv : st.launched_units.length ≤ st.max_num_concurrent_units) :
    (runCycles statusReads st).launched_units.length
      ≤ st.max_num_concurrent_units := by
  induction statusReads generalizing st with
  | nil => exact hinv
  | cons f fs ih =>
      have hstep : runCycles (f :: fs) st = runCycles fs (admissionCycle f st) := rfl
      rw [hstep]
      have hc := admissionCycle_cap f st
      have h1 := admissionCycle_cap_le f st hcap hinv
      have := ih (admissionCycle f st) (by rw [hc]; exact hcap) (by rw [hc]; exact h1)
      rwa [hc] at this

/-- A small concrete launcher state exercised by the witnesses:
cap 2, one launched unit, three pending units. -/
def sampleLauncher : LauncherState :=
  { db := ⟨[], [], 0⟩
  , max_num_concurrent_units := 2
  , generator_type := GeneratorType.assignment
  , assignments := [0]
  , units := [5, 6, 7, 8]
  , launched_units := [5]
  , unlaunched_units := [6, 7, 8]
  , keep_launching_units := true
  , finished_generators := false
  , did_create_assignments := true
  , did_launch_units := true }

/-- Witness for C2 at a concrete input: two passes over the sample
state keep the Active set within the cap of 2. -/
theorem c2_witness :
    (runCycles [fun _ => "completed", fun _ => AssignmentState.LAUNCHED]
        sampleLauncher).launched_units.length
      ≤ sampleLauncher.max_num_concurrent_units :=
  c2_cap_respected [fun _ => "completed", fun _ => AssignmentState.LAUNCHED]
    sampleLauncher (by decide) (by decide)

/-- C1 counterexample: in the streaming system, register one assignment
with a single unit (unit id 1 enters Pending), then run the admission
generator: at its first `yield` suspension point the unit is in
`launched_units` (inserted on line 172) while still in
`unlaunched_units` (the pop on lines 177-179 is deferred to the end of
the batch), so Pending and Active are not disjoint at every suspension
point. -/
theorem c1_counterexample :
    ¬ (∀ gs ∈ yieldStates (fun _ => AssignmentState.LAUNCHED)
          (runTrace [(SysTid.reg, fun _ => AssignmentState.LAUNCHED)]
            (streamingStart ⟨[], [], 0⟩ 1 [⟨0, [7]⟩])).launcher,
        ∀ u ∈ gs.launched_units, u ∉ gs.unlaunched_units) := by
  decide

/-- C1 amended: the Pending set (`unlaunched_units`) and the Active set
(`launched_units`) are disjoint at every reconciliation-point boundary
of the admission generator — if they are disjoint when a sequence of
`generate_units` passes starts, they are disjoint after any number of
passes.  (They are *not* disjoint at the yield suspension points inside
a pass: between a unit's insertion into `launched_units` and the
deferred end-of-batch pop it is momentarily in both mappings.) -/
theorem c1_disjoint_at_cycle_boundaries (statusReads : List (Nat → String))
    (st : LauncherState)
    (hdisj : ∀ u ∈ st.launched_units, u ∉ st.unlaunched_units) :
    ∀ u ∈ (runCycles statusReads st).launched_units,
      u ∉ (runCycles statusReads st).unlaunched_units := by
  induction statusReads generalizing st with
  | nil => exact hdisj
  | cons f fs ih =>
      have hstep : runCycles (f :: fs) st = runCycles fs (admissionCycle f st) := rfl
      rw [hstep]
      exact ih (admissionCycle f st) (admissionCycle_disjoint f st hdisj)

/-- Witness for the amended C1 at a concrete input: after two passes
over the sample state, unit 6 is Active and not Pending. -/
theorem c1_witness :
    6 ∈ (runCycles [fun _ => "completed", fun _ => AssignmentState.LAUNCHED]
        sampleLauncher).launched_units ∧
    decide (6 ∈ (runCycles [fun _ => "completed",
        fun _ => AssignmentState.LAUNCHED]
        sampleLauncher).unlaunched_units) = false :=
  ⟨by decide,
    decide_eq_false
      (c1_disjoint_at_cycle_boundaries
        [fun _ => "completed", fun _ => AssignmentState.LAUNCHED]
        sampleLauncher (by decide) 6 (by decide))⟩

/-! ### Materialization lemmas (C5, C6) -/

/-- The unit rows belonging to one assignment, in creation order. -/
def unitRowsOf (db : DbState) (aid : Nat) : List DbUnit :=
  db.units.filter (fun u => u.assignment_id == aid)

/-- Every id recorded in the database is below the fresh-id counter, so
newly allocated ids are genuinely new. -/
def dbFresh (db : DbState) : Prop :=
  (∀ a ∈ db.assignments, a.assignment_id < db.nextId) ∧
  (∀ u ∈ db.units, u.assignment_id < db.nextId ∧ u.unit_id < db.nextId)

/-- Every unit row has a parent assignment row. -/
def noOrphans (db : DbState) : Prop :=
  ∀ u ∈ db.units, ∃ a ∈ db.assignments, a.assignment_id = u.assignment_id

/-- Closed form of the unit-creation loop: starting from `st1`, creating
`count` units for assignment `aid` appends rows with consecutive fresh
ids and indices `0..count-1` to the unit table, to `self.units` and to
the Pending set. -/
lemma unitsLoop_spec (aid : Nat) (st1 : LauncherState) (count : Nat) :
    (List.range count).foldl (addUnit aid) st1
      = { st1 with
          db := { st1.db with
            units := st1.db.units
              ++ (List.range count).map (fun i => ⟨st1.db.nextId + i, aid, i⟩)
          , nextId := st1.db.nextId + count }
        , units := st1.units
            ++ (List.range count).map (fun i => st1.db.nextId + i)
        , unlaunched_units := st1.unlaunched_units
            ++ (List.range count).map (fun i => st1.db.nextId + i)
        , keep_launching_units :=
            st1.keep_launching_units || !(count == 0) } := by
  induction count with
  | zero => simp
  | succ n ih =>
      rw [List.range_succ, List.foldl_append, ih]
      simp [addUnit, List.range_succ, Nat.add_assoc]

/-- Closed form of `_create_single_assignment` (success path): one new
assignment row with the fresh id, `count` new unit rows with consecutive
ids and indices `0..count-1`, all new units appended to `self.units`
and to the Pending set. -/
lemma create_single_assignment_spec (st : LauncherState)
    (data : InitializationData) :
    create_single_assignment st data
      = { st with
          db := { assignments := st.db.assignments ++ [⟨st.db.nextId, data⟩]
                , units := st.db.units
                    ++ (List.range data.unit_data.length).map
                        (fun i => ⟨st.db.nextId + 1 + i, st.db.nextId, i⟩)
                , nextId := st.db.nextId + 1 + data.unit_data.length }
        , assignments := st.assignments ++ [st.db.nextId]
        , units := st.units
            ++ (List.range data.unit_data.length).map
                (fun i => st.db.nextId + 1 + i)
        , unlaunched_units := st.unlaunched_units
            ++ (List.range data.unit_data.length).map
                (fun i => st.db.nextId + 1 + i)
        , keep_launching_units :=
            st.keep_launching_units || !(data.unit_data.length == 0) } := by
  unfold create_single_assignment
  rw [unitsLoop_spec]

/-- Invariant relating a launcher state to the records it has
materialized so far, relative to the initial database `db0`. -/
structure Materialized (db0 : DbState) (st : LauncherState)
    (records : List InitializationData) : Prop where
  fresh : dbFresh st.db
  aidsBelow : ∀ a ∈ st.assignments, a < st.db.nextId
  nAssign : st.assignments.length = records.length
  nDbAssign : st.db.assignments.length = db0.assignments.length + records.length
  unitIdx : ∀ p ∈ st.assignments.zip records,
      (unitRowsOf st.db p.1).map DbUnit.unit_index
        = List.range p.2.unit_data.length
  pendingAll : st.unlaunched_units = st.units

/-- Registering one record preserves the materialization invariant. -/
lemma materialized_step (db0 : DbState) (st : LauncherState)
    (done : List InitializationData) (r : InitializationData)
    (h : Materialized db0 st done) :
    Materialized db0 (create_single_assignment st r) (done ++ [r]) := by
  obtain ⟨hfresh, haids, hn, hdbn, hidx, hpend⟩ := h
  rw [create_single_assignment_spec]
  constructor
  · -- dbFresh
    constructor
    · intro a ha
      dsimp only at ha ⊢
      rcases List.mem_append.mp ha with ha | ha
      · have := hfresh.1 a ha
        omega
      · simp at ha
        subst ha
        dsimp only
        omega
    · intro u hu
      dsimp only at hu ⊢
      rcases List.mem_append.mp hu with hu | hu
      · have := hfresh.2 u hu
        omega
      · rcases List.mem_map.mp hu with ⟨i, hi, rfl⟩
        have := List.mem_range.mp hi
        dsimp only
        omega
  · -- aidsBelow
    intro a ha
    dsimp only at ha ⊢
    rcases List.mem_append.mp ha with ha | ha
    · have := haids a ha
      omega
    · simp at ha
      subst ha
      omega
  · -- nAssign
    simp [hn]
  · -- nDbAssign
    dsimp only
    simp [hdbn]
    omega
  · -- unitIdx
    intro p hp
    dsimp only at hp ⊢
    rw [List.zip_append hn] at hp
    rcases List.mem_append.mp hp with hp | hp
    · obtain ⟨a, b⟩ := p
      have ha : a ∈ st.assignments := (List.of_mem_zip hp).1
      have haN : a < st.db.nextId := haids a ha
      have hdrop :
          unitRowsOf
            { assignments := st.db.assignments ++ [⟨st.db.nextId, r⟩]
            , units := st.db.units
                ++ (List.range r.unit_data.length).map
                    (fun i => ⟨st.db.nextId + 1 + i, st.db.nextId, i⟩)
            , nextId := st.db.nextId + 1 + r.unit_data.length } a
          = unitRowsOf st.db a := by
        unfold unitRowsOf
        simp only [List.filter_append]
        have hnil : ((List.range r.unit_data.length).map
            (fun i => (⟨st.db.nextId + 1 + i, st.db.nextId, i⟩ : DbUnit))).filter
              (fun u => u.assignment_id == a) = [] := by
          apply List.filter_eq_nil_iff.mpr
          intro u hu
          rcases List.mem_map.mp hu with ⟨i, hi, rfl⟩
          simp
          omega
        rw [hnil, List.append_nil]
      exact hdrop ▸ hidx (a, b) hp
    · simp only [List.zip_cons_cons, List.zip_nil_right, List.mem_singleton] at hp
      subst hp
      dsimp only
      have hold : (st.db.units.filter
          (fun u => u.assignment_id == st.db.nextId)) = [] := by
        apply List.filter_eq_nil_iff.mpr
        intro u hu
        have := (hfresh.2 u hu).1
        simp
        omega
      have hkeep : ((List.range r.unit_data.length).map
          (fun i => (⟨st.db.nextId + 1 + i, st.db.nextId, i⟩ : DbUnit))).filter
            (fun u => u.assignment_id == st.db.nextId)
          = (List.range r.unit_data.length).map
              (fun i => (⟨st.db.nextId + 1 + i, st.db.nextId, i⟩ : DbUnit)) := by
        apply List.filter_eq_self.mpr
        intro u hu
        rcases List.mem_map.mp hu with ⟨i, hi, rfl⟩
        simp
      unfold unitRowsOf
      simp only [List.filter_append, hold, hkeep, List.nil_append,
        List.map_map]
      exact List.map_id' _
  · -- pendingAll
    simp [hpend]

/-- The launcher starts in the empty materialization. -/
lemma materialized_init (kind : DataSourceKind) (db : DbState) (cap : Nat)
    (hdb : dbFresh db) :
    Materialized db (TaskLauncher.init kind db cap).launcher [] := by
  constructor <;> simp [TaskLauncher.init]
  exact hdb

/-- Folding the registrar over a record list materializes exactly those
records. -/
lemma materialized_fold (db0 : DbState) (st : LauncherState)
    (done rs : List InitializationData)
    (h : Materialized db0 st done) :
    Materialized db0 (rs.foldl create_single_assignment st) (done ++ rs) := by
  induction rs generalizing st done with
  | nil => simpa using h
  | cons r rs ih =>
      have hh := ih (create_single_assignment st r) (done ++ [r])
        (materialized_step db0 st done r h)
      simpa [List.append_assoc] using hh

/-- C6: in bounded mode, `create_assignments` over `N` records creates
exactly `N` assignments (both in the launcher's list and as new database
rows); pairing the created assignment ids with the records in order, each
assignment's unit rows carry exactly the indices `0..len-1` where `len`
is the length of that record's per-unit payload sequence (so its unit
count equals that length, in payload order); and every created unit is
in the Pending set (`unlaunched_units` and `units` coincide). -/
theorem c6_exact_materialization (kind : DataSourceKind) (db : DbState)
    (cap : Nat) (records : List InitializationData)
    (hkind : kind ≠ DataSourceKind.generatorObj)
    (hdb : dbFresh db) :
    ((create_assignments (TaskLauncher.init kind db cap).launcher
        records).assignments.length = records.length) ∧
    ((create_assignments (TaskLauncher.init kind db cap).launcher
        records).db.assignments.length
      = db.assignments.length + records.length) ∧
    (∀ p ∈ (create_assignments (TaskLauncher.init kind db cap).launcher
        records).assignments.zip records,
      (unitRowsOf (create_assignments (TaskLauncher.init kind db cap).launcher
          records).db p.1).map DbUnit.unit_index
        = List.range p.2.unit_data.length) ∧
    ((create_assignments (TaskLauncher.init kind db cap).launcher
        records).unlaunched_units
      = (create_assignments (TaskLauncher.init kind db cap).launcher
        records).units) := by
  have hmode : (TaskLauncher.init kind db cap).launcher.generator_type
      = GeneratorType.none := by
    cases kind
    · exact absurd rfl hkind
    · rfl
    · rfl
  have hca : create_assignments (TaskLauncher.init kind db cap).launcher records
      = records.foldl create_single_assignment
          (TaskLauncher.init kind db cap).launcher := by
    unfold create_assignments
    rw [hmode]
  rw [hca]
  have h := materialized_fold db _ [] records
    (materialized_init kind db cap hdb)
  simp only [List.nil_append] at h
  exact ⟨h.nAssign, h.nDbAssign, h.unitIdx, h.pendingAll⟩

/-- An empty storage state. -/
def emptyDb : DbState := ⟨[], [], 0⟩

/-- Two concrete records: 2 unit payloads, then 1 unit payload. -/
def sampleRecords : List InitializationData := [⟨1, [4, 5]⟩, ⟨2, [6]⟩]

/-- Witness for C6 at a concrete input: two records with 2 and 1 unit
payloads respectively, registered from a list-backed source. -/
theorem c6_witness :
    ((create_assignments
        (TaskLauncher.init DataSourceKind.listObj emptyDb 0).launcher
        sampleRecords).assignments.length = sampleRecords.length) ∧
    ((create_assignments
        (TaskLauncher.init DataSourceKind.listObj emptyDb 0).launcher
        sampleRecords).db.assignments.length
      = emptyDb.assignments.length + sampleRecords.length) ∧
    ((unitRowsOf (create_assignments
        (TaskLauncher.init DataSourceKind.listObj emptyDb 0).launcher
        sampleRecords).db 0).map DbUnit.unit_index
      = List.range (InitializationData.mk 1 [4, 5]).unit_data.length) ∧
    ((create_assignments
        (TaskLauncher.init DataSourceKind.listObj emptyDb 0).launcher
        sampleRecords).unlaunched_units
      = (create_assignments
          (TaskLauncher.init DataSourceKind.listObj emptyDb 0).launcher
          sampleRecords).units) :=
  have h := c6_exact_materialization DataSourceKind.listObj emptyDb 0
    sampleRecords (by decide)
    (by constructor <;> simp [emptyDb])
  ⟨h.1, h.2.1, h.2.2.1 (0, ⟨1, [4, 5]⟩) (by decide), h.2.2.2⟩

/-- Appending one assignment row together with unit rows that all point
at it preserves orphan-freedom. -/
lemma noOrphans_extend (db : DbState) (a : DbAssignment)
    (rows : List DbUnit) (n : Nat) (horph : noOrphans db)
    (hrows : ∀ u ∈ rows, u.assignment_id = a.assignment_id) :
    noOrphans { assignments := db.assignments ++ [a]
              , units := db.units ++ rows
              , nextId := n } := by
  intro u hu
  dsimp only at hu ⊢
  rcases List.mem_append.mp hu with hu | hu
  · obtain ⟨pa, hpa, hid⟩ := horph u hu
    exact ⟨pa, List.mem_append_left _ hpa, hid⟩
  · exact ⟨a, List.mem_append_right _ (by simp), (hrows u hu).symm⟩

/-- C5 counterexample: with an empty store, registering a record whose
per-unit payload sequence has two entries while the second
`db.new_unit` write fails leaves the new assignment persisted with only
one unit row — part of the Assignment-plus-Units group remains created,
and the assignment has fewer units than the record's payload count, so
`_create_single_assignment` is not atomic with respect to partial
failure. -/
theorem c5_counterexample :
    ((create_single_assignment_fallible
        (TaskLauncher.init DataSourceKind.listObj emptyDb 0).launcher
        ⟨9, [1, 2]⟩ (some 2)).2 = true) ∧
    ((create_single_assignment_fallible
        (TaskLauncher.init DataSourceKind.listObj emptyDb 0).launcher
        ⟨9, [1, 2]⟩ (some 2)).1.db.assignments.length = 1) ∧
    ((unitRowsOf (create_single_assignment_fallible
        (TaskLauncher.init DataSourceKind.listObj emptyDb 0).launcher
        ⟨9, [1, 2]⟩ (some 2)).1.db 0).length = 1) := by
  decide

/-- C5 amended: `_create_single_assignment` is not atomic with respect
to partial failure.  If the write of unit `k` fails (`k <` payload
count), the call raises and the new assignment row together with the
first `k` unit rows remains persisted — an Assignment can persist with
fewer Units than the record's per-unit payload count.  A failure of the
assignment write itself leaves the store unchanged, and under every
failure schedule no orphan Unit exists (every unit row has a parent
assignment row), since the Assignment is persisted before its Units. -/
theorem c5_partial_failure_not_atomic (st : LauncherState)
    (data : InitializationData) (k : Nat)
    (hk : k < data.unit_data.length)
    (hfresh : dbFresh st.db) (horph : noOrphans st.db) :
    ((create_single_assignment_fallible st data (some (k + 1))).2 = true) ∧
    ((create_single_assignment_fallible st data (some (k + 1))).1.db.assignments
        = st.db.assignments ++ [⟨st.db.nextId, data⟩]) ∧
    ((unitRowsOf (create_single_assignment_fallible st data
        (some (k + 1))).1.db st.db.nextId).length = k) ∧
    (create_single_assignment_fallible st data (some 0) = (st, true)) ∧
    (∀ failAt, noOrphans
        (create_single_assignment_fallible st data failAt).1.db) := by
  have hmid : (create_single_assignment_fallible st data (some (k + 1))).1
      = (List.range k).foldl (addUnit st.db.nextId)
          { st with
            db := { st.db with
                      assignments := st.db.assignments ++ [⟨st.db.nextId, data⟩]
                    , nextId := st.db.nextId + 1 }
          , assignments := st.assignments ++ [st.db.nextId] } := by
    simp [create_single_assignment_fallible, hk]
  rw [unitsLoop_spec] at hmid
  have hflag : (create_single_assignment_fallible st data (some (k + 1))).2
      = true := by
    simp [create_single_assignment_fallible, hk]
  refine ⟨hflag, ?_, ?_, rfl, ?_⟩
  · rw [hmid]
  · rw [hmid]
    unfold unitRowsOf
    dsimp only
    rw [List.filter_append]
    have hold : (st.db.units.filter
        (fun u => u.assignment_id == st.db.nextId)) = [] := by
      apply List.filter_eq_nil_iff.mpr
      intro u hu
      have := (hfresh.2 u hu).1
      simp
      omega
    have hkeep : ((List.range k).map
        (fun i => (⟨st.db.nextId + 1 + i, st.db.nextId, i⟩ : DbUnit))).filter
          (fun u => u.assignment_id == st.db.nextId)
        = (List.range k).map
            (fun i => (⟨st.db.nextId + 1 + i, st.db.nextId, i⟩ : DbUnit)) := by
      apply List.filter_eq_self.mpr
      intro u hu
      rcases List.mem_map.mp hu with ⟨i, hi, rfl⟩
      simp
    rw [hold, hkeep, List.nil_append, List.length_map, List.length_range]
  · intro failAt
    match failAt with
    | some 0 => exact horph
    | some (j + 1) =>
        by_cases hj : j < data.unit_data.length
        · have hmidj : (create_single_assignment_fallible st data (some (j + 1))).1
              = (List.range j).foldl (addUnit st.db.nextId)
                  { st with
                    db := { st.db with
                              assignments := st.db.assignments
                                ++ [⟨st.db.nextId, data⟩]
                            , nextId := st.db.nextId + 1 }
                  , assignments := st.assignments ++ [st.db.nextId] } := by
            simp [create_single_assignment_fallible, hj]
          rw [unitsLoop_spec] at hmidj
          rw [hmidj]
          apply noOrphans_extend st.db ⟨st.db.nextId, data⟩ _ _ horph
          intro u hu
          rcases List.mem_map.mp hu with ⟨i, hi, rfl⟩
          rfl
        · have : (create_single_assignment_fallible st data (some (j + 1))).1
              = create_single_assignment st data := by
            simp [create_single_assignment_fallible, hj]
          rw [this, create_single_assignment_spec]
          apply noOrphans_extend st.db ⟨st.db.nextId, data⟩ _ _ horph
          intro u hu
          rcases List.mem_map.mp hu with ⟨i, hi, rfl⟩
          rfl
    | none =>
        have : (create_single_assignment_fallible st data none).1
            = create_single_assignment st data := rfl
        rw [this, create_single_assignment_spec]
        apply noOrphans_extend st.db ⟨st.db.nextId, data⟩ _ _ horph
        intro u hu
        rcases List.mem_map.mp hu with ⟨i, hi, rfl⟩
        rfl

/-- Witness for the amended C5 at a concrete input: failing the second
unit write of a two-payload record on an empty store. -/
theorem c5_witness :
    ((create_single_assignment_fallible
        (TaskLauncher.init DataSourceKind.listObj emptyDb 0).launcher
        ⟨9, [1, 2]⟩ (some (1 + 1))).2 = true) ∧
    ((create_single_assignment_fallible
        (TaskLauncher.init DataSourceKind.listObj emptyDb 0).launcher
        ⟨9, [1, 2]⟩ (some (1 + 1))).1.db.assignments
      = (TaskLauncher.init DataSourceKind.listObj emptyDb 0).launcher.db.assignments
          ++ [⟨(TaskLauncher.init DataSourceKind.listObj emptyDb 0).launcher.db.nextId,
               ⟨9, [1, 2]⟩⟩]) ∧
    ((unitRowsOf (create_single_assignment_fallible
        (TaskLauncher.init DataSourceKind.listObj emptyDb 0).launcher
        ⟨9, [1, 2]⟩ (some (1 + 1))).1.db
        (TaskLauncher.init DataSourceKind.listObj emptyDb 0).launcher.db.nextId).length
      = 1) ∧
    (create_single_assignment_fallible
        (TaskLauncher.init DataSourceKind.listObj emptyDb 0).launcher
        ⟨9, [1, 2]⟩ (some 0)
      = ((TaskLauncher.init DataSourceKind.listObj emptyDb 0).launcher, true)) :=
  have h := c5_partial_failure_not_atomic
    (TaskLauncher.init DataSourceKind.listObj emptyDb 0).launcher
    ⟨9, [1, 2]⟩ 1 (by decide)
    (by constructor <;> simp [TaskLauncher.init, emptyDb])
    (by intro u hu; simp [TaskLauncher.init, emptyDb] at hu)
  ⟨h.1, h.2.1, h.2.2.1, h.2.2.2.1⟩

/-! ### Expiration lemmas (C8) -/

/-- Once the best-effort loop has expired a unit, later iterations keep
it expired. -/
lemma expireFold_preserves (expireFails : Nat → Bool) (l : List Nat)
    (m : Nat → String) (uid : Nat)
    (h : m uid = AssignmentState.EXPIRED) :
    l.foldl (fun m u => if expireFails u then m else unitExpire m u) m uid
      = AssignmentState.EXPIRED := by
  induction l generalizing m with
  | nil => exact h
  | cons v l ih =>
      simp only [List.foldl_cons]
      apply ih
      by_cases hv : expireFails v
      · rw [if_pos hv]
        exact h
      · rw [if_neg hv]
        unfold unitExpire
        by_cases huv : uid = v
        · simp [huv]
        · simp only [if_neg huv]
          exact h

/-- Every unit in the loop's list whose own expire call does not fail
ends up expired, regardless of failures of other units. -/
lemma expireFold_mem (expireFails : Nat → Bool) (l : List Nat)
    (m : Nat → String) (uid : Nat) (hmem : uid ∈ l)
    (hok : expireFails uid = false) :
    l.foldl (fun m u => if expireFails u then m else unitExpire m u) m uid
      = AssignmentState.EXPIRED := by
  induction l generalizing m with
  | nil => cases hmem
  | cons v l ih =>
      simp only [List.foldl_cons]
      rcases List.mem_cons.mp hmem with rfl | hmem'
      · apply expireFold_preserves
        rw [hok, if_neg (by simp)]
        simp [unitExpire]
      · exact ih _ hmem'

/-- C8: `expire_units` attempts expiration on every unit ever created by
the launcher: after the call, every unit in `self.units` whose own
`unit.expire()` call did not raise has the terminal status `expired`,
even when other units' expire calls raised (those failures are caught by
the per-unit except-block and do not abort the remaining attempts); the
call also stops both background loops. -/
theorem c8_expire_units_best_effort (st : LauncherState)
    (statusOf : Nat → String) (expireFails : Nat → Bool) :
    ((expire_units st statusOf expireFails).1.keep_launching_units = false) ∧
    ((expire_units st statusOf expireFails).1.finished_generators = true) ∧
    (∀ uid ∈ st.units, expireFails uid = false →
      (expire_units st statusOf expireFails).2 uid = AssignmentState.EXPIRED ∧
      (expire_units st statusOf expireFails).2 uid ∈ terminalStatuses) := by
  refine ⟨rfl, rfl, ?_⟩
  intro uid hmem hok
  have h := expireFold_mem expireFails st.units statusOf uid hmem hok
  refine ⟨h, ?_⟩
  rw [show (expire_units st statusOf expireFails).2
      = st.units.foldl
          (fun m u => if expireFails u then m else unitExpire m u) statusOf
    from rfl, h]
  decide

/-- Witness for C8 at a concrete input: expiring the sample launcher
while unit 6's expire call raises still expires unit 5. -/
theorem c8_witness :
    (5 ∈ sampleLauncher.units ∧ (fun u => u == 6) 5 = false) ∧
    ((expire_units sampleLauncher (fun _ => AssignmentState.LAUNCHED)
        (fun u => u == 6)).2 5 = AssignmentState.EXPIRED ∧
      (expire_units sampleLauncher (fun _ => AssignmentState.LAUNCHED)
        (fun u => u == 6)).2 5 ∈ terminalStatuses) :=
  ⟨⟨by decide, rfl⟩,
    (c8_expire_units_best_effort sampleLauncher
        (fun _ => AssignmentState.LAUNCHED) (fun u => u == 6)).2.2
      5 (by decide) rfl⟩

/-! ### Streaming-system lemmas (C7) -/

/-- C7 counterexample: streaming mode with a single one-unit record.  A
legal schedule: the registration thread registers the record (unit 1
enters Pending) and then observes exhaustion (clearing
`did_launch_units`), all before the driver thread reaches its
`while self.did_launch_units` test; the driver then stops although the
Pending set is non-empty — so the launch driver loop can stop while
Pending is not empty. -/
theorem c7_counterexample :
    ((runTrace [(SysTid.reg, fun _ => AssignmentState.LAUNCHED),
        (SysTid.reg, fun _ => AssignmentState.LAUNCHED),
        (SysTid.drv, fun _ => AssignmentState.LAUNCHED)]
        (streamingStart emptyDb 0 [⟨0, [7]⟩])).driverPc
      = DriverPc.stopped) ∧
    ((runTrace [(SysTid.reg, fun _ => AssignmentState.LAUNCHED),
        (SysTid.reg, fun _ => AssignmentState.LAUNCHED),
        (SysTid.drv, fun _ => AssignmentState.LAUNCHED)]
        (streamingStart emptyDb 0 [⟨0, [7]⟩])).launcher.unlaunched_units
      = [1]) ∧
    ((runTrace [(SysTid.reg, fun _ => AssignmentState.LAUNCHED),
        (SysTid.reg, fun _ => AssignmentState.LAUNCHED),
        (SysTid.drv, fun _ => AssignmentState.LAUNCHED)]
        (streamingStart emptyDb 0 [⟨0, [7]⟩])).launcher.finished_generators
      = true) := by
  decide

/-- Invariant of the streaming system: the driver thread can only have
stopped after the registration loop finished. -/
def StreamInv (s : SysState) : Prop :=
  s.launcher.generator_type = GeneratorType.assignment ∧
  (s.launcher.did_launch_units = false →
    s.launcher.finished_generators = true) ∧
  (s.driverPc = DriverPc.stopped → s.launcher.finished_generators = true)

/-- Registering an assignment changes neither the generator type nor the
launch/registration flags. -/
lemma create_single_assignment_flags (st : LauncherState)
    (data : InitializationData) :
    (create_single_assignment st data).generator_type = st.generator_type ∧
    (create_single_assignment st data).did_launch_units = st.did_launch_units ∧
    (create_single_assignment st data).finished_generators
      = st.finished_generators := by
  rw [create_single_assignment_spec]
  exact ⟨rfl, rfl, rfl⟩

/-- An admission pass changes neither the generator type nor the
launch/registration flags. -/
lemma admissionCycle_flags (f : Nat → String) (st : LauncherState) :
    (admissionCycle f st).generator_type = st.generator_type ∧
    (admissionCycle f st).did_launch_units = st.did_launch_units ∧
    (admissionCycle f st).finished_generators = st.finished_generators := by
  unfold admissionCycle
  split <;> exact ⟨rfl, rfl, rfl⟩

/-- The registration-thread step preserves the invariant. -/
lemma regStep_inv (s : SysState) (h : StreamInv s) : StreamInv (regStep s) := by
  obtain ⟨hg, hdl, hpc⟩ := h
  unfold regStep
  by_cases hf : s.launcher.finished_generators
  · rw [if_pos hf]
    exact ⟨hg, hdl, hpc⟩
  · rw [if_neg hf]
    by_cases hdc : s.launcher.did_create_assignments = true
    · rw [if_pos hdc]
      cases hsrc : s.source with
      | cons data rest =>
          refine ⟨?_, ?_, ?_⟩
          · exact (create_single_assignment_flags _ _).1.trans hg
          · intro hdl'
            rw [show ({ s with launcher := create_single_assignment s.launcher data
                             , source := rest } : SysState).launcher
                = create_single_assignment s.launcher data from rfl,
              (create_single_assignment_flags _ _).2.1] at hdl'
            rw [show ({ s with launcher := create_single_assignment s.launcher data
                             , source := rest } : SysState).launcher
                = create_single_assignment s.launcher data from rfl,
              (create_single_assignment_flags _ _).2.2]
            exact hdl hdl'
          · intro _
            rw [show ({ s with launcher := create_single_assignment s.launcher data
                             , source := rest } : SysState).launcher
                = create_single_assignment s.launcher data from rfl,
              (create_single_assignment_flags _ _).2.2]
            exact hpc (by assumption)
      | nil => exact ⟨hg, fun _ => rfl, fun _ => rfl⟩
    · rw [if_neg hdc]
      exact ⟨hg, hdl, hpc⟩

/-- The driver-thread step preserves the invariant. -/
lemma drvStep_inv (f : Nat → String) (s : SysState) (h : StreamInv s) :
    StreamInv (drvStep f s) := by
  obtain ⟨hg, hdl, hpc⟩ := h
  unfold drvStep
  split
  · exact ⟨hg, hdl, hpc⟩
  · split
    · exact ⟨hg, hdl, fun h' => nomatch h'⟩
    · next h1 =>
        have hb : s.launcher.did_launch_units = false := by
          revert h1
          cases s.launcher.did_launch_units <;> simp
        exact ⟨hg, fun _ => hdl hb, fun _ => hdl hb⟩
  · split
    · split
      · split
        · next hnone =>
            have hga : (admissionCycle f s.launcher).generator_type
                = GeneratorType.assignment :=
              (admissionCycle_flags f s.launcher).1.trans hg
            rw [hnone] at hga
            exact absurd hga (by decide)
        · refine ⟨(admissionCycle_flags f s.launcher).1.trans hg, ?_,
            fun h' => nomatch h'⟩
          intro hdl'
          have hdl2 : (admissionCycle f s.launcher).did_launch_units = false :=
            hdl'
          rw [(admissionCycle_flags f s.launcher).2.1] at hdl2
          show (admissionCycle f s.launcher).finished_generators = true
          rw [(admissionCycle_flags f s.launcher).2.2]
          exact hdl hdl2
      · refine ⟨(admissionCycle_flags f s.launcher).1.trans hg, ?_,
          fun h' => nomatch h'⟩
        intro hdl'
        have hdl2 : (admissionCycle f s.launcher).did_launch_units = false :=
          hdl'
        rw [(admissionCycle_flags f s.launcher).2.1] at hdl2
        show (admissionCycle f s.launcher).finished_generators = true
        rw [(admissionCycle_flags f s.launcher).2.2]
        exact hdl hdl2
    · split
      · next hnone =>
          rw [hg] at hnone
          exact absurd hnone (by decide)
      · exact ⟨hg, hdl, fun h' => nomatch h'⟩

/-- Any interleaving of the two threads preserves the invariant. -/
lemma runTrace_inv (trace : List (SysTid × (Nat → String))) (s : SysState)
    (h : StreamInv s) : StreamInv (runTrace trace s) := by
  induction trace generalizing s with
  | nil => exact h
  | cons t ts ih =>
      obtain ⟨tid, f⟩ := t
      cases tid with
      | reg => exact ih _ (regStep_inv s h)
      | drv => exact ih _ (drvStep_inv f s h)

/-- C7 amended: in streaming mode the launch driver loop never stops
while the background registration loop has not finished —
`did_launch_units` first becomes false when the registration loop
observes source exhaustion, and the driver stops only on seeing that
flag down.  (The other half of the original claim is false: the driver
*can* stop while Pending is non-empty, when units are registered between
the admission generator's last empty-Pending observation and the
driver's loop test — see the counterexample.) -/
theorem c7_driver_stops_only_after_registration_finished
    (db : DbState) (cap : Nat) (source : List InitializationData)
    (trace : List (SysTid × (Nat → String)))
    (hstop : (runTrace trace (streamingStart db cap source)).driverPc
        = DriverPc.stopped) :
    (runTrace trace (streamingStart db cap source)).launcher.finished_generators
      = true := by
  have hinv : StreamInv (streamingStart db cap source) := by
    refine ⟨rfl, ?_, ?_⟩
    · intro h
      simp [streamingStart, TaskLauncher.init] at h
    · intro h
      simp [streamingStart] at h
  exact (runTrace_inv trace _ hinv).2.2 hstop

/-- Witness for the amended C7 on a concrete stopping schedule: when
the driver has stopped, the registration loop has indeed finished. -/
theorem c7_witness :
    (runTrace [(SysTid.reg, fun _ => AssignmentState.LAUNCHED),
        (SysTid.reg, fun _ => AssignmentState.LAUNCHED),
        (SysTid.drv, fun _ => AssignmentState.LAUNCHED)]
      (streamingStart emptyDb 0 [⟨0, [7]⟩])).launcher.finished_generators
      = true :=
  c7_driver_stops_only_after_registration_finished emptyDb 0 [⟨0, [7]⟩]
    [(SysTid.reg, fun _ => AssignmentState.LAUNCHED),
     (SysTid.reg, fun _ => AssignmentState.LAUNCHED),
     (SysTid.drv, fun _ => AssignmentState.LAUNCHED)] (by decide)

end Mephisto
